import Mathlib

/-!
Shallow embedding of the Hacker News MCP server's content-extraction
pipeline and date-search heuristic (src/app/server.py), together with
theorems settling the specification claims about them.

External collaborators (the HTTP transport, the BeautifulSoup HTML
parsing library and the html2text rendering library) are modelled as
explicit oracle parameters or, where the claims need their behaviour,
as definitions written from the specification's contract, each marked
as such in its doc comment.  Everything else is translated directly
from the Python source.
-/

/-- A list-of-characters version of Python's startswith: the first
argument occurs at the head of the second. -/
def takesLead : List Char → List Char → Bool
  | [], _ => true
  | _ :: _, [] => false
  | a :: as, b :: bs => a == b && takesLead as bs

/-- The first list occurs contiguously somewhere inside the second. -/
def occursIn (needle : List Char) : List Char → Bool
  | [] => takesLead needle []
  | b :: bs => takesLead needle (b :: bs) || occursIn needle bs

/-- Python's substring test `sub in s`. -/
def containsStr (s sub : String) : Bool :=
  occursIn sub.data s.data

/-- Python truthiness of an optional string: `None` and `""` are falsy. -/
def pyStrTruthy : Option String → Bool
  | none => false
  | some s => !(s == "")

/-- Python `v or d` for an optional string `v`: the value when truthy,
the default otherwise. -/
def pyOrStr : Option String → String → String
  | none, d => d
  | some s, d => if s == "" then d else s

/-- Python truthiness of an optional bool: `None` is falsy. -/
def pyBoolTruthy : Option Bool → Bool
  | none => false
  | some b => b

/-- The `Item` pydantic model from src/app/server.py.  The Python field
`by` is a Lean keyword and is rendered `byUser`. -/
structure Item where
  id : Int
  type : Option String
  deleted : Option Bool
  byUser : Option String
  time : Option Int
  text : Option String
  dead : Option Bool
  parent : Option Int
  poll : Option Int
  kids : Option (List Int)
  url : Option String
  score : Option Int
  title : Option String
  parts : Option (List Int)
  descendants : Option Int

/-- An `Item` with every optional field absent, for building concrete
test items by record update. -/
def emptyItem : Item :=
  ⟨0, none, none, none, none, none, none, none, none, none, none, none, none, none, none⟩

/-- The `ContentResponse` pydantic model from src/app/server.py. -/
structure ContentResponse where
  title : String
  url : String
  content : String
  content_type : String
  story_id : Int
  byUser : Option String
  time : Option Int
  score : Option Int
  descendants : Option Int
  error : Option String

/- ----- DOM model for the BeautifulSoup-backed extractor ----- -/

mutual
/-- An HTML DOM node: either a text node or an element with a tag, a
list of class tokens, an optional id attribute, an optional href/src
attribute and child nodes. -/
inductive Node where
  | text (s : String)
  | elem (tag : String) (classes : List String) (idAttr : Option String)
      (href : Option String) (children : NodeList)
/-- A sequence of sibling DOM nodes (a document is one of these). -/
inductive NodeList where
  | nil
  | cons (n : Node) (rest : NodeList)
end

/-- Build a `NodeList` from an ordinary list of nodes. -/
def NodeList.ofList : List Node → NodeList
  | [] => .nil
  | n :: rest => .cons n (NodeList.ofList rest)

/-- An element with the given tag and children and no attributes. -/
def el (tag : String) (children : List Node) : Node :=
  .elem tag [] none none (NodeList.ofList children)

/-- A text node. -/
def txt (s : String) : Node :=
  .text s

/-- Serialize the attributes of an element the way BeautifulSoup's
`str` does (only attributes that are present are printed). -/
def serializeAttrs (classes : List String) (idAttr href : Option String) : String :=
  (if classes.isEmpty then "" else " class=\"" ++ String.intercalate " " classes ++ "\"")
    ++ (match idAttr with
        | none => ""
        | some v => " id=\"" ++ v ++ "\"")
    ++ (match href with
        | none => ""
        | some v => " href=\"" ++ v ++ "\"")

mutual
/-- `str(tag)` on a BeautifulSoup node: markup for the node and its
descendants. -/
def serialize : Node → String
  | .text s => s
  | .elem t c i h ch =>
      "<" ++ t ++ serializeAttrs c i h ++ ">" ++ serializeList ch ++ "</" ++ t ++ ">"
/-- `str` of a sequence of sibling nodes. -/
def serializeList : NodeList → String
  | .nil => ""
  | .cons n rest => serialize n ++ serializeList rest
end

/-- The removal rule of `extract_main_content`'s CSS selector group
`'nav, header, footer, aside, script, style, iframe, .ads,
.navigation, .menu, .sidebar, .comments'`: an element matches when its
tag is one of the seven listed tags or its class token list contains
one of the five listed class names.  (The last five selectors are
class selectors, so the id attribute is never consulted.) -/
def isRemovableElem (t : String) (classes : List String) : Bool :=
  ["nav", "header", "footer", "aside", "script", "style", "iframe"].contains t
    || classes.any (fun c => ["ads", "navigation", "menu", "sidebar", "comments"].contains c)

/-- Whether a node matches the removal selector group. -/
def nodeRemovable : Node → Bool
  | .text _ => false
  | .elem t c _ _ _ => isRemovableElem t c

mutual
/-- Rebuild a kept node, filtering removable elements out of its
descendants (the effect of `element.decompose()` on every selected
element). -/
def removeNode : Node → Node
  | .text s => .text s
  | .elem t c i h ch => .elem t c i h (removeNodes ch)
/-- Drop every removable element (with its whole subtree) from a
sequence of siblings, recursing into kept elements. -/
def removeNodes : NodeList → NodeList
  | .nil => .nil
  | .cons n rest =>
      if nodeRemovable n then removeNodes rest
      else .cons (removeNode n) (removeNodes rest)
end

/-- One simple CSS selector as used by `extract_main_content`: a tag
name, a class name, or an id. -/
inductive Selector where
  | tagSel (t : String)
  | clsSel (c : String)
  | idSel (i : String)

/-- Whether an element with the given tag, classes and id matches a
selector. -/
def selMatches : Selector → String → List String → Option String → Bool
  | .tagSel tg, t, _, _ => t == tg
  | .clsSel cl, _, cs, _ => cs.contains cl
  | .idSel iv, _, _, i => i == some iv

mutual
/-- `select_one` relative to a single node: the node itself if it
matches, otherwise the first match among its descendants in document
order. -/
def selectNode (sel : Selector) : Node → Option Node
  | .text _ => none
  | .elem t c i h ch =>
      if selMatches sel t c i then some (.elem t c i h ch)
      else selectList sel ch
/-- `soup.select_one(sel)`: first matching element in document order. -/
def selectList (sel : Selector) : NodeList → Option Node
  | .nil => none
  | .cons n rest =>
      match selectNode sel n with
      | some m => some m
      | none => selectList sel rest
end

/-- The probe list `['article', 'main', '.content', '.post',
'.article', '#content', '#main']` of `extract_main_content`. -/
def mainSelectors : List Selector :=
  [.tagSel "article", .tagSel "main", .clsSel "content", .clsSel "post",
   .clsSel "article", .idSel "content", .idSel "main"]

/-- Try each selector in priority order, returning the first hit. -/
def firstMatch : List Selector → NodeList → Option Node
  | [], _ => none
  | s :: rest, doc =>
      match selectList s doc with
      | some n => some n
      | none => firstMatch rest doc

/-- The body of `extract_main_content`'s `try` block, applied to a
parsed document: remove boilerplate, probe for the main content
element, falling back to `soup.body` and then to the whole soup. -/
def extractFromDoc (doc : NodeList) : String :=
  let cleaned := removeNodes doc
  match firstMatch mainSelectors cleaned with
  | some n => serialize n
  | none =>
      match selectList (.tagSel "body") cleaned with
      | some b => serialize b
      | none => serializeList cleaned

/-- `extract_main_content` from src/app/server.py.  The BeautifulSoup
library is the external parser; it is passed as an oracle `parse`,
with `none` modelling an exception raised inside the `try` block, in
which case the original HTML string is returned unmodified. -/
def extract_main_content (parse : String → Option NodeList) (html_content : String) : String :=
  match parse html_content with
  | some doc => extractFromDoc doc
  | none => html_content

/- ----- Fetcher ----- -/

/-- The dictionary returned by `fetch_url_content`. -/
structure FetchResult where
  content : String
  content_type : String
  url : String
  error : Option String

/-- The outcome of the single `http_client.get` call (plus
`raise_for_status`): either a body with the declared content-type
header and the post-redirect URL, or a raised transport/status
exception with its message. -/
inductive HttpOutcome where
  | success (body : String) (contentTypeHeader : String) (finalUrl : String)
  | failure (message : String)

/-- `fetch_url_content` from src/app/server.py, as a function of the
HTTP outcome.  Classification uses Python's substring test on the
content-type header; a missing header is the empty string. -/
def fetch_url_content (url : String) (outcome : HttpOutcome) : FetchResult :=
  match outcome with
  | .success body ct finalUrl =>
      if containsStr ct "text/html" then
        { content := body, content_type := "html", url := finalUrl, error := none }
      else if containsStr ct "application/json" then
        { content := body, content_type := "json", url := finalUrl, error := none }
      else
        { content := body, content_type := "text", url := finalUrl, error := none }
  | .failure msg =>
      { content := "", content_type := "error", url := url, error := some msg }

/- ----- Converter (html2text) ----- -/

/-- The html2text configuration flags set by `html_to_markdown`. -/
structure H2TConfig where
  ignore_links : Bool
  ignore_images : Bool
  ignore_tables : Bool
  body_width : Nat

/-- Greedy wrap of one line at width `w`. -/
def wrapWordsAux (w : Nat) : List String → String → String
  | [], cur => cur
  | word :: rest, cur =>
      if cur == "" then wrapWordsAux w rest word
      else if cur.length + 1 + word.length ≤ w then wrapWordsAux w rest (cur ++ " " ++ word)
      else cur ++ "\n" ++ wrapWordsAux w rest word

/-- Wrap every line of a string at width `w`. -/
def wrapText (w : Nat) (s : String) : String :=
  String.intercalate "\n" ((s.splitOn "\n").map (fun line => wrapWordsAux w (line.splitOn " ") ""))

mutual
/-- Modelled from the spec: the html2text library (external to this
repository) renders an HTML fragment to markdown-like text, keeping
hyperlinks as `[text](href)` and images as `![](src)` unless the
corresponding ignore flag is set, keeping table rows unless
ignore_tables is set, and treating other elements as transparent
containers (paragraphs end with a blank line). -/
def rendNode (cfg : H2TConfig) : Node → String
  | .text s => s
  | .elem t _ _ h ch =>
      if t == "a" then
        if cfg.ignore_links then rendList cfg ch
        else "[" ++ rendList cfg ch ++ "](" ++ h.getD "" ++ ")"
      else if t == "img" then
        if cfg.ignore_images then "" else "![](" ++ h.getD "" ++ ")"
      else if t == "tr" then
        if cfg.ignore_tables then rendList cfg ch else "| " ++ rendList cfg ch ++ " |\n"
      else if t == "p" then rendList cfg ch ++ "\n\n"
      else rendList cfg ch
/-- Modelled from the spec: html2text rendering of sibling nodes. -/
def rendList (cfg : H2TConfig) : NodeList → String
  | .nil => ""
  | .cons n rest => rendNode cfg n ++ rendList cfg rest
end

/-- Modelled from the spec: the html2text `handle` entry point wraps
the rendered text at `body_width` columns unless `body_width` is 0, in
which case long lines are rendered as-is. -/
def h2tHandle (cfg : H2TConfig) (doc : NodeList) : String :=
  if cfg.body_width == 0 then rendList cfg doc
  else wrapText cfg.body_width (rendList cfg doc)

/-- The configuration `html_to_markdown` gives the converter:
`ignore_links = False`, `ignore_images = False`,
`ignore_tables = False`, `body_width = 0` (no wrapping). -/
def sourceH2TConfig : H2TConfig :=
  { ignore_links := false, ignore_images := false,
    ignore_tables := false, body_width := 0 }

/-- `html_to_markdown` from src/app/server.py: the html2text converter
with the source's configuration, applied to the parsed fragment. -/
def html_to_markdown (doc : NodeList) : String :=
  h2tHandle sourceH2TConfig doc

/- ----- Pipeline orchestration ----- -/

/-- The `ContentResponse` built by `get_story_content`'s outer
`except` clause: placeholder metadata and the exception message. -/
def errorPlaceholder (story_id : Int) (e : String) : ContentResponse :=
  { title := "Error", url := "", content := "", content_type := "error",
    story_id := story_id, byUser := none, time := none, score := none,
    descendants := none, error := some e }

/-- `get_story_content` from src/app/server.py, as a function of its
external collaborators: the result of `get_item` (with `.error`
modelling the exception it may raise), the HTTP outcome of the one
content fetch, the BeautifulSoup parse oracle, and the html2text
`handle` call (whose `.error` models an exception raised by the
library, caught by the outer `except`). -/
def get_story_content (getItemResult : Except String Item) (httpOutcome : HttpOutcome)
    (parse : String → Option NodeList) (handle : String → Except String String)
    (story_id : Int) (format : String) : ContentResponse :=
  match getItemResult with
  | .error e => errorPlaceholder story_id e
  | .ok story =>
      if !pyStrTruthy story.url then
        { title := pyOrStr story.title "No title", url := "",
          content := pyOrStr story.text "No content available", content_type := "text",
          story_id := story_id, byUser := story.byUser, time := story.time,
          score := story.score, descendants := story.descendants,
          error := some "Story does not have a URL" }
      else
        let url := story.url.getD ""
        let urlData := fetch_url_content url httpOutcome
        if urlData.content_type == "error" then
          { title := pyOrStr story.title "No title", url := url, content := "",
            content_type := "error", story_id := story_id, byUser := story.byUser,
            time := story.time, score := story.score, descendants := story.descendants,
            error := some (urlData.error.getD "Failed to fetch content") }
        else
          let processed : Except String (String × String) :=
            if urlData.content_type == "html" then
              let mainContent := extract_main_content parse urlData.content
              if format == "markdown" then
                Except.map (fun md => (md, "markdown")) (handle mainContent)
              else Except.ok (mainContent, "html")
            else Except.ok (urlData.content, urlData.content_type)
          match processed with
          | .ok (c, ct) =>
              { title := pyOrStr story.title "No title", url := urlData.url, content := c,
                content_type := ct, story_id := story_id, byUser := story.byUser,
                time := story.time, score := story.score, descendants := story.descendants,
                error := none }
          | .error e => errorPlaceholder story_id e

/-- A single-quote character as a string (used in the not-found
message of `get_story_content_by_title`). -/
def singleQuote : String :=
  String.mk [Char.ofNat 39]

/-- `get_story_content_by_title` from src/app/server.py, as a function
of the story ids returned by `find_stories_by_title(title, limit=1)`
and of the collaborators of the delegated `get_story_content` call. -/
def get_story_content_by_title (matchingStories : List Int)
    (getItemResult : Except String Item) (httpOutcome : HttpOutcome)
    (parse : String → Option NodeList) (handle : String → Except String String)
    (title : String) (format : String) : ContentResponse :=
  match matchingStories with
  | [] =>
      { title := "Not found", url := "", content := "", content_type := "error",
        story_id := 0, byUser := none, time := none, score := none, descendants := none,
        error := some ("No stories found matching " ++ singleQuote ++ title ++ singleQuote) }
  | sid :: _ => get_story_content getItemResult httpOutcome parse handle sid format

/- ----- search_by_date ----- -/

/-- The filter of `search_by_date`'s loop body: the item is a story
and neither deleted nor dead (Python truthiness on optional bools). -/
def keepAsStory (it : Item) : Bool :=
  it.type == some "story" && !pyBoolTruthy it.deleted && !pyBoolTruthy it.dead

/-- The `while` loop of `search_by_date` from src/app/server.py, with
`get_item` as an oracle whose `.error` models a raised exception.
Returns the collected stories, the final value of `checked`, and the
number of loop iterations performed. -/
def searchLoop (getItem : Int → Except Unit Item) (targetId : Int) (limit : Nat) :
    List Item → Nat → Int → List Item × Nat × Nat
  | stories, checked, currentId =>
    if h : stories.length < limit ∧ checked < limit * 10 then
      match getItem currentId with
      | .ok item =>
          let stories2 := if keepAsStory item then stories ++ [item] else stories
          let nextId :=
            if checked % 2 == 0 then targetId + (checked : Int) / 2 + 1
            else targetId - (checked : Int) / 2 - 1
          let r := searchLoop getItem targetId limit stories2 (checked + 1) nextId
          (r.1, r.2.1, r.2.2 + 1)
      | .error _ =>
          let r := searchLoop getItem targetId limit stories (checked + 1) currentId
          (r.1, r.2.1, r.2.2 + 1)
    else (stories, checked, 0)
termination_by stories checked currentId => limit * 10 - checked
decreasing_by all_goals (simp_wf; omega)

/-- `search_by_date` from src/app/server.py, as a function of the
`get_item` oracle and the current max item id. -/
def search_by_date (getItem : Int → Except Unit Item) (maxId : Int)
    (daysAgo : Int) (limit : Nat) : List Item :=
  let items_per_day : Int := 20000
  let targetId := max 1 (maxId - daysAgo * items_per_day)
  ((searchLoop getItem targetId limit [] 0 targetId).1).take limit

/- ----- Helper lemmas ----- -/

/-- The classifier of `fetch_url_content` only ever emits the four
documented kinds. -/
theorem fetch_content_type_cases (url : String) (o : HttpOutcome) :
    (fetch_url_content url o).content_type = "html"
      ∨ (fetch_url_content url o).content_type = "json"
      ∨ (fetch_url_content url o).content_type = "text"
      ∨ (fetch_url_content url o).content_type = "error" := by
  cases o with
  | success body ct finalUrl =>
      by_cases h1 : containsStr ct "text/html" <;>
        by_cases h2 : containsStr ct "application/json" <;>
        simp [fetch_url_content, h1, h2]
  | failure msg => simp [fetch_url_content]

/-- The ContentResult invariant of `get_story_content`: kind `error`
comes with empty content and a present error message; any other kind
comes with no error message except the no-URL note. -/
theorem gsc_invariant (gi : Except String Item) (ho : HttpOutcome)
    (parse : String → Option NodeList) (handle : String → Except String String)
    (sid : Int) (fmt : String) :
    ((get_story_content gi ho parse handle sid fmt).content_type = "error" →
      (get_story_content gi ho parse handle sid fmt).content = ""
        ∧ (get_story_content gi ho parse handle sid fmt).error ≠ none)
    ∧ ((get_story_content gi ho parse handle sid fmt).content_type ≠ "error" →
      (get_story_content gi ho parse handle sid fmt).error = none
        ∨ (get_story_content gi ho parse handle sid fmt).error
            = some "Story does not have a URL") := by
  cases gi with
  | error e => simp [get_story_content, errorPlaceholder]
  | ok story =>
      by_cases hu : pyStrTruthy story.url
      · rcases fetch_content_type_cases (story.url.getD "") ho with hct | hct | hct | hct <;>
          by_cases hf : fmt == "markdown" <;>
          rcases hh : handle (extract_main_content parse
            (fetch_url_content (story.url.getD "") ho).content) with e | md <;>
          simp [get_story_content, errorPlaceholder, Except.map, hu, hct, hf, hh]
      · simp [get_story_content, hu]

/- ----- Claim theorems ----- -/

/-- C1 (amended): for every ContentResult produced by
`get_story_content` or `get_story_content_by_title`, content kind
"error" implies the content field is empty and the error field is
non-null; for every other content kind the error field is null,
except the no-URL short-circuit, whose result has kind "text"
together with the non-null error note "Story does not have a URL". -/
theorem content_error_invariant (gi : Except String Item) (ho : HttpOutcome)
    (parse : String → Option NodeList) (handle : String → Except String String)
    (sid : Int) (fmt : String) (ms : List Int) (ti : String) :
    (((get_story_content gi ho parse handle sid fmt).content_type = "error" →
        (get_story_content gi ho parse handle sid fmt).content = ""
          ∧ (get_story_content gi ho parse handle sid fmt).error ≠ none)
      ∧ ((get_story_content gi ho parse handle sid fmt).content_type ≠ "error" →
        (get_story_content gi ho parse handle sid fmt).error = none
          ∨ (get_story_content gi ho parse handle sid fmt).error
              = some "Story does not have a URL"))
    ∧ (((get_story_content_by_title ms gi ho parse handle ti fmt).content_type = "error" →
        (get_story_content_by_title ms gi ho parse handle ti fmt).content = ""
          ∧ (get_story_content_by_title ms gi ho parse handle ti fmt).error ≠ none)
      ∧ ((get_story_content_by_title ms gi ho parse handle ti fmt).content_type ≠ "error" →
        (get_story_content_by_title ms gi ho parse handle ti fmt).error = none
          ∨ (get_story_content_by_title ms gi ho parse handle ti fmt).error
              = some "Story does not have a URL")) := by
  refine ⟨gsc_invariant gi ho parse handle sid fmt, ?_⟩
  cases ms with
  | nil => simp [get_story_content_by_title]
  | cons sid2 rest =>
      simpa [get_story_content_by_title] using gsc_invariant gi ho parse handle sid2 fmt

/-- C1 witness: a concrete run through the invariant. -/
theorem content_error_invariant_witness :
    (get_story_content (.error "boom") (.failure "f") (fun _ => none)
        (fun s => .ok s) 1 "markdown").content_type = "error"
    ∧ (get_story_content (.error "boom") (.failure "f") (fun _ => none)
        (fun s => .ok s) 1 "markdown").content = ""
    ∧ (get_story_content (.error "boom") (.failure "f") (fun _ => none)
        (fun s => .ok s) 1 "markdown").error ≠ none := by
  refine ⟨rfl, (content_error_invariant (.error "boom") (.failure "f") (fun _ => none)
    (fun s => .ok s) 1 "markdown" [] "t").1.1 rfl⟩

/-- C1 counterexample: the no-URL short-circuit yields a result whose
content kind is "text" while its error field is non-null, so "for
every other content kind the error field is null" fails. -/
theorem content_error_invariant_cex :
    (get_story_content (.ok { emptyItem with text := some "inline" }) (.failure "f")
        (fun _ => none) (fun s => .ok s) 1 "markdown").content_type = "text"
    ∧ (get_story_content (.ok { emptyItem with text := some "inline" }) (.failure "f")
        (fun _ => none) (fun s => .ok s) 1 "markdown").error ≠ none := by
  refine ⟨rfl, ?_⟩
  simp [get_story_content, emptyItem, pyStrTruthy, pyOrStr]

/-- C2: when the URL fetch succeeds with a declared media type that is
not text/html, the pipeline's output content is the raw response body
verbatim and the output kind is the declared media category ("json"
for application/json, "text" otherwise). -/
theorem nonhtml_passthrough (story : Item) (parse : String → Option NodeList)
    (handle : String → Except String String) (sid : Int)
    (fmt body ctH finalUrl : String)
    (hurl : pyStrTruthy story.url = true)
    (hct : containsStr ctH "text/html" = false) :
    (get_story_content (.ok story) (.success body ctH finalUrl) parse handle sid fmt).content
        = body
    ∧ (get_story_content (.ok story) (.success body ctH finalUrl) parse handle sid fmt).content_type
        = (if containsStr ctH "application/json" then "json" else "text")
    ∧ (get_story_content (.ok story) (.success body ctH finalUrl) parse handle sid fmt).error
        = none := by
  by_cases hj : containsStr ctH "application/json" <;>
    simp [get_story_content, fetch_url_content, hurl, hct, hj]

/-- C2 witness: a JSON response passes through verbatim. -/
theorem nonhtml_passthrough_witness :
    pyStrTruthy ({ emptyItem with url := some "http://a" } : Item).url = true
    ∧ containsStr "application/json" "text/html" = false
    ∧ ((get_story_content (.ok { emptyItem with url := some "http://a" })
          (.success "{}" "application/json" "http://a") (fun _ => none)
          (fun s => .ok s) 1 "markdown").content = "{}"
        ∧ (get_story_content (.ok { emptyItem with url := some "http://a" })
            (.success "{}" "application/json" "http://a") (fun _ => none)
            (fun s => .ok s) 1 "markdown").content_type
              = (if containsStr "application/json" "application/json" then "json" else "text")
        ∧ (get_story_content (.ok { emptyItem with url := some "http://a" })
            (.success "{}" "application/json" "http://a") (fun _ => none)
            (fun s => .ok s) 1 "markdown").error = none) :=
  ⟨by decide, by decide,
    nonhtml_passthrough { emptyItem with url := some "http://a" } (fun _ => none)
      (fun s => .ok s) 1 "markdown" "{}" "application/json" "http://a"
      (by decide) (by decide)⟩

/-- C3: when the URL fetch fails, the pipeline returns empty content,
kind "error", and exactly the fetcher's error message; the fetch
boundary itself yields a well-defined FetchResult rather than a
propagated exception. -/
theorem fetch_error_propagated (story : Item) (parse : String → Option NodeList)
    (handle : String → Except String String) (sid : Int) (fmt msg : String)
    (hurl : pyStrTruthy story.url = true) :
    (get_story_content (.ok story) (.failure msg) parse handle sid fmt).content = ""
    ∧ (get_story_content (.ok story) (.failure msg) parse handle sid fmt).content_type = "error"
    ∧ (fetch_url_content (story.url.getD "") (.failure msg)).error = some msg
    ∧ (get_story_content (.ok story) (.failure msg) parse handle sid fmt).error
        = (fetch_url_content (story.url.getD "") (.failure msg)).error := by
  simp [get_story_content, fetch_url_content, hurl]

/-- C3 witness: a concrete failed fetch. -/
theorem fetch_error_propagated_witness :
    pyStrTruthy ({ emptyItem with url := some "http://a" } : Item).url = true
    ∧ ((get_story_content (.ok { emptyItem with url := some "http://a" })
          (.failure "timeout") (fun _ => none) (fun s => .ok s) 1 "markdown").content = ""
        ∧ (get_story_content (.ok { emptyItem with url := some "http://a" })
            (.failure "timeout") (fun _ => none) (fun s => .ok s) 1 "markdown").content_type
              = "error"
        ∧ (fetch_url_content (({ emptyItem with url := some "http://a" } : Item).url.getD "")
            (.failure "timeout")).error = some "timeout"
        ∧ (get_story_content (.ok { emptyItem with url := some "http://a" })
            (.failure "timeout") (fun _ => none) (fun s => .ok s) 1 "markdown").error
              = (fetch_url_content (({ emptyItem with url := some "http://a" } : Item).url.getD "")
                  (.failure "timeout")).error) :=
  ⟨by decide,
    fetch_error_propagated { emptyItem with url := some "http://a" } (fun _ => none)
      (fun s => .ok s) 1 "markdown" "timeout" (by decide)⟩

/-- C4: a story with no outbound URL short-circuits: kind "text", the
story's inline text (placeholder when absent), the no-URL error note,
and the result does not depend on the fetch outcome, the parser or
the converter (no network fetch of content is performed). -/
theorem no_url_short_circuit (story : Item) (ho ho2 : HttpOutcome)
    (parse parse2 : String → Option NodeList)
    (handle handle2 : String → Except String String) (sid : Int) (fmt : String)
    (hurl : pyStrTruthy story.url = false) :
    (get_story_content (.ok story) ho parse handle sid fmt).content_type = "text"
    ∧ (get_story_content (.ok story) ho parse handle sid fmt).content
        = pyOrStr story.text "No content available"
    ∧ (get_story_content (.ok story) ho parse handle sid fmt).error
        = some "Story does not have a URL"
    ∧ get_story_content (.ok story) ho parse handle sid fmt
        = get_story_content (.ok story) ho2 parse2 handle2 sid fmt := by
  simp [get_story_content, hurl]

/-- C4 witness: a concrete story without URL. -/
theorem no_url_short_circuit_witness :
    pyStrTruthy ({ emptyItem with text := some "inline" } : Item).url = false
    ∧ ((get_story_content (.ok { emptyItem with text := some "inline" }) (.failure "f")
          (fun _ => none) (fun s => .ok s) 1 "markdown").content_type = "text"
        ∧ (get_story_content (.ok { emptyItem with text := some "inline" }) (.failure "f")
            (fun _ => none) (fun s => .ok s) 1 "markdown").content
              = pyOrStr ({ emptyItem with text := some "inline" } : Item).text
                  "No content available"
        ∧ (get_story_content (.ok { emptyItem with text := some "inline" }) (.failure "f")
            (fun _ => none) (fun s => .ok s) 1 "markdown").error
              = some "Story does not have a URL"
        ∧ get_story_content (.ok { emptyItem with text := some "inline" }) (.failure "f")
            (fun _ => none) (fun s => .ok s) 1 "markdown"
              = get_story_content (.ok { emptyItem with text := some "inline" })
                  (.success "b" "text/html" "u") (fun _ => some NodeList.nil)
                  (fun s => .error s) 1 "markdown") :=
  ⟨by decide,
    no_url_short_circuit { emptyItem with text := some "inline" } (.failure "f")
      (.success "b" "text/html" "u") (fun _ => none) (fun _ => some NodeList.nil)
      (fun s => .ok s) (fun s => .error s) 1 "markdown" (by decide)⟩

/-- C7: when parsing (or removal) raises inside the extractor's `try`
block, the extractor returns the original input HTML unmodified. -/
theorem extract_exception_fallback (parse : String → Option NodeList) (html : String)
    (hp : parse html = none) :
    extract_main_content parse html = html := by
  simp [extract_main_content, hp]

/-- C7 witness: a parser that always fails returns the input. -/
theorem extract_exception_fallback_witness :
    (fun (_ : String) => (none : Option NodeList)) "<p>x" = none
    ∧ extract_main_content (fun _ => none) "<p>x" = "<p>x" :=
  ⟨rfl, extract_exception_fallback (fun _ => none) "<p>x" rfl⟩

/-- A document containing a nav (with the given text), a script (with
the given text) and an article with text "Hello world". -/
def c5doc (nt st : String) : NodeList :=
  NodeList.ofList [el "body" [el "nav" [txt nt], el "script" [txt st],
    el "article" [txt "Hello world"]]]

/-- C5: on HTML parsing to a document with a nav, a script and an
article with text "Hello world", the extractor's output contains
"Hello world" and contains neither the nav text nor the script text
(provided those texts do not happen to occur in the serialized
article). -/
theorem extractor_keeps_article (nt st html : String) (parse : String → Option NodeList)
    (hp : parse html = some (c5doc nt st))
    (h1 : containsStr "<article>Hello world</article>" nt = false)
    (h2 : containsStr "<article>Hello world</article>" st = false) :
    containsStr (extract_main_content parse html) "Hello world" = true
    ∧ containsStr (extract_main_content parse html) nt = false
    ∧ containsStr (extract_main_content parse html) st = false := by
  have hres : extract_main_content parse html = "<article>Hello world</article>" := by
    simp only [extract_main_content, hp]
    rfl
  rw [hres]
  exact ⟨by decide, h1, h2⟩

/-- C5 witness: concrete nav and script texts. -/
theorem extractor_keeps_article_witness :
    (fun (_ : String) => some (c5doc "SITE MENU" "var x=1;")) "page"
        = some (c5doc "SITE MENU" "var x=1;")
    ∧ containsStr "<article>Hello world</article>" "SITE MENU" = false
    ∧ containsStr "<article>Hello world</article>" "var x=1;" = false
    ∧ (containsStr (extract_main_content
          (fun _ => some (c5doc "SITE MENU" "var x=1;")) "page") "Hello world" = true
        ∧ containsStr (extract_main_content
            (fun _ => some (c5doc "SITE MENU" "var x=1;")) "page") "SITE MENU" = false
        ∧ containsStr (extract_main_content
            (fun _ => some (c5doc "SITE MENU" "var x=1;")) "page") "var x=1;" = false) :=
  ⟨rfl, by decide, by decide,
    extractor_keeps_article "SITE MENU" "var x=1;" "page"
      (fun _ => some (c5doc "SITE MENU" "var x=1;")) rfl (by decide) (by decide)⟩

mutual
/-- All nodes of a subtree, the root included, as a flat list. -/
def nodeAll : Node → List Node
  | .text s => [.text s]
  | .elem t c i h ch => .elem t c i h ch :: listAll ch
/-- All nodes of a sequence of sibling subtrees, as a flat list. -/
def listAll : NodeList → List Node
  | .nil => []
  | .cons n rest => nodeAll n ++ listAll rest
end

mutual
/-- After removal, no descendant of a kept node matches the removal
selector group. -/
theorem removeNode_sound : ∀ (n : Node), nodeRemovable n = false →
    ∀ m ∈ nodeAll (removeNode n), nodeRemovable m = false
  | .text _, _ => by
      intro m hm
      simp [removeNode, nodeAll] at hm
      subst hm
      rfl
  | .elem t c i h ch, hn => by
      intro m hm
      simp [removeNode, nodeAll] at hm
      rcases hm with hm | hm
      · subst hm
        simpa [nodeRemovable] using hn
      · exact removeNodes_sound ch m hm
/-- After removal, no surviving node matches the removal selector
group. -/
theorem removeNodes_sound : ∀ (ns : NodeList),
    ∀ m ∈ listAll (removeNodes ns), nodeRemovable m = false
  | .nil => by
      intro m hm
      simp [removeNodes, listAll] at hm
  | .cons n rest => by
      intro m hm
      by_cases hn : nodeRemovable n
      · rw [removeNodes, if_pos hn] at hm
        exact removeNodes_sound rest m hm
      · rw [removeNodes, if_neg hn] at hm
        simp [listAll] at hm
        rcases hm with hm | hm
        · exact removeNode_sound n (by simpa using hn) m hm
        · exact removeNodes_sound rest m hm
end

/-- C6 (amended): the extractor's removal pass removes every node
that is a nav, header, footer, aside, script, style or iframe
element, and every element whose class token list contains ads,
navigation, menu, sidebar or comments — but id attributes are not
consulted (the source's last five selectors are class selectors), so
no surviving node matches the removal rule. -/
theorem removal_is_complete (ns : NodeList) (m : Node)
    (hm : m ∈ listAll (removeNodes ns)) :
    nodeRemovable m = false :=
  removeNodes_sound ns m hm

/-- C6 witness: a surviving text node. -/
theorem removal_is_complete_witness :
    Node.text "x" ∈ listAll (removeNodes (.cons (.text "x") .nil))
    ∧ nodeRemovable (.text "x") = false :=
  ⟨List.Mem.head _,
    removal_is_complete (.cons (.text "x") .nil) (.text "x") (List.Mem.head _)⟩

/-- A document whose body holds a div with id "sidebar" (and no class
attribute) next to a paragraph. -/
def c6doc : NodeList :=
  .cons (.elem "body" [] none none
    (.cons (.elem "div" [] (some "sidebar") none (.cons (.text "SIDEBAR LINKS") .nil))
      (.cons (el "p" [txt "x"]) .nil))) .nil

/-- C6 counterexample: an element whose id (not class) hints at a
sidebar survives the removal pass unchanged, and its text reaches the
extractor's output — the claim's "class or id" is refuted, the code
removes by class only. -/
theorem removal_misses_id_hints_cex :
    removeNodes c6doc = c6doc
    ∧ containsStr (extract_main_content (fun _ => some c6doc) "page") "SIDEBAR LINKS"
        = true :=
  ⟨rfl, by decide⟩

/-- The fragment `<p>Hello <a href="http://x.com">link</a></p>`. -/
def c8frag : NodeList :=
  NodeList.ofList [Node.elem "p" [] none none (NodeList.ofList
    [txt "Hello ", Node.elem "a" [] none (some "http://x.com")
      (NodeList.ofList [txt "link"])])]

/-- C8: converting the fragment
`<p>Hello <a href="http://x.com">link</a></p>` yields text containing
both "Hello" and the link target "http://x.com", and with
`body_width = 0` the converter's output is the unwrapped rendering
(no forced line-wrapping at a fixed column). -/
theorem converter_preserves_links :
    containsStr (html_to_markdown c8frag) "Hello" = true
    ∧ containsStr (html_to_markdown c8frag) "http://x.com" = true
    ∧ ∀ doc : NodeList, html_to_markdown doc = rendList sourceH2TConfig doc :=
  ⟨by decide, by decide, fun _ => rfl⟩

/-- A story whose metadata is fully known before any fetch. -/
def c9story : Item :=
  { emptyItem with
    title := some "T"
    url := some "http://e.com"
    byUser := some "alice"
    time := some 5
    score := some 10
    descendants := some 3 }

/-- C9 counterexample: when the converter raises after the story's
metadata is already known (title "T", author "alice"), the pipeline's
catch-all returns placeholder metadata — title "Error" and a null
author — instead of preserving the known metadata. -/
theorem catch_all_discards_metadata_cex :
    c9story.title = some "T"
    ∧ c9story.byUser = some "alice"
    ∧ (get_story_content (.ok c9story) (.success "<p>x</p>" "text/html" "http://e.com")
        (fun _ => some NodeList.nil) (fun _ => .error "boom") 7 "markdown").content_type
          = "error"
    ∧ (get_story_content (.ok c9story) (.success "<p>x</p>" "text/html" "http://e.com")
        (fun _ => some NodeList.nil) (fun _ => .error "boom") 7 "markdown").title = "Error"
    ∧ (get_story_content (.ok c9story) (.success "<p>x</p>" "text/html" "http://e.com")
        (fun _ => some NodeList.nil) (fun _ => .error "boom") 7 "markdown").byUser = none :=
  ⟨by decide, by decide, by decide, by decide, by decide⟩

/-- C9 (amended): every exception escaping to the pipeline boundary —
a `get_item` failure, or a converter exception on the markdown path —
is caught and converted into a ContentResult of kind "error" whose
error is the exception message, but with fixed placeholder metadata
(title "Error", empty url, no author/time/score/descendants),
regardless of what metadata was already known. -/
theorem catch_all_error_response (story : Item) (body ctH fu e : String)
    (parse : String → Option NodeList) (handle : String → Except String String)
    (sid : Int)
    (hurl : pyStrTruthy story.url = true)
    (hct : containsStr ctH "text/html" = true)
    (hh : handle (extract_main_content parse body) = .error e) :
    get_story_content (.ok story) (.success body ctH fu) parse handle sid "markdown"
        = errorPlaceholder sid e
    ∧ ∀ (e2 : String) (ho : HttpOutcome) (p2 : String → Option NodeList)
        (h2 : String → Except String String) (fmt : String),
        get_story_content (.error e2) ho p2 h2 sid fmt = errorPlaceholder sid e2 := by
  constructor
  · simp [get_story_content, fetch_url_content, errorPlaceholder, Except.map, hurl, hct, hh]
  · intro e2 ho p2 h2 fmt
    rfl

/-- C9 witness: a concrete converter failure. -/
theorem catch_all_error_response_witness :
    pyStrTruthy c9story.url = true
    ∧ containsStr "text/html" "text/html" = true
    ∧ (fun (_ : String) => (Except.error "boom" : Except String String))
        (extract_main_content (fun _ => some NodeList.nil) "<p>x</p>") = .error "boom"
    ∧ (get_story_content (.ok c9story) (.success "<p>x</p>" "text/html" "http://e.com")
          (fun _ => some NodeList.nil) (fun _ => .error "boom") 7 "markdown"
            = errorPlaceholder 7 "boom"
        ∧ ∀ (e2 : String) (ho : HttpOutcome) (p2 : String → Option NodeList)
            (h2 : String → Except String String) (fmt : String),
            get_story_content (.error e2) ho p2 h2 7 fmt = errorPlaceholder 7 e2) :=
  ⟨by decide, by decide, rfl,
    catch_all_error_response c9story "<p>x</p>" "text/html" "http://e.com" "boom"
      (fun _ => some NodeList.nil) (fun _ => .error "boom") 7
      (by decide) (by decide) rfl⟩

/-- The loop of `search_by_date` increments `checked` by exactly one
on every iteration — on the success path and on the exception path
alike — so the final `checked` is the start value plus the iteration
count, and the iteration count never exceeds the remaining budget
`limit * 10 - checked`. -/
theorem searchLoop_checked (getItem : Int → Except Unit Item) (targetId : Int)
    (limit : Nat) :
    ∀ (stories : List Item) (checked : Nat) (currentId : Int),
      (searchLoop getItem targetId limit stories checked currentId).2.1
        = checked + (searchLoop getItem targetId limit stories checked currentId).2.2
      ∧ (searchLoop getItem targetId limit stories checked currentId).2.2
          ≤ limit * 10 - checked := by
  have main : ∀ (fuel : Nat) (s : List Item) (c : Nat) (cur : Int),
      limit * 10 - c ≤ fuel →
      (searchLoop getItem targetId limit s c cur).2.1
        = c + (searchLoop getItem targetId limit s c cur).2.2
      ∧ (searchLoop getItem targetId limit s c cur).2.2 ≤ limit * 10 - c := by
    intro fuel
    induction fuel with
    | zero =>
        intro s c cur hf
        have hc : ¬(s.length < limit ∧ c < limit * 10) := by omega
        rw [searchLoop, dif_neg hc]
        exact ⟨rfl, Nat.zero_le _⟩
    | succ n ihf =>
        intro s c cur hf
        by_cases hcond : s.length < limit ∧ c < limit * 10
        · cases heq : getItem cur with
          | ok item =>
              have h1 := ihf (s ++ [item]) (c + 1) (targetId + (c : Int) / 2 + 1) (by omega)
              have h2 := ihf (s ++ [item]) (c + 1) (targetId - (c : Int) / 2 - 1) (by omega)
              have h3 := ihf s (c + 1) (targetId + (c : Int) / 2 + 1) (by omega)
              have h4 := ihf s (c + 1) (targetId - (c : Int) / 2 - 1) (by omega)
              rw [searchLoop, dif_pos hcond]
              simp only [heq]
              split_ifs <;> omega
          | error u =>
              have h5 := ihf s (c + 1) cur (by omega)
              rw [searchLoop, dif_pos hcond]
              simp only [heq]
              omega
        · rw [searchLoop, dif_neg hcond]
          exact ⟨rfl, Nat.zero_le _⟩
  intro stories checked currentId
  exact main (limit * 10 - checked) stories checked currentId le_rfl

/-- C10: for every `get_item` oracle, max item id, `days_ago` and
`limit ≥ 1`, the `search_by_date` loop terminates with `checked`
equal to the number of iterations (it increases by exactly one per
iteration, on the success path and on the exception path alike), the
loop performs at most `limit * 10` iterations, and the function
returns at most `limit` stories. -/
theorem search_by_date_bounded (getItem : Int → Except Unit Item) (maxId daysAgo : Int)
    (limit : Nat) (hl : 1 ≤ limit) :
    (search_by_date getItem maxId daysAgo limit).length ≤ limit
    ∧ (∀ (targetId : Int) (stories : List Item) (checked : Nat) (currentId : Int),
        (searchLoop getItem targetId limit stories checked currentId).2.1
          = checked + (searchLoop getItem targetId limit stories checked currentId).2.2)
    ∧ (∀ targetId : Int,
        (searchLoop getItem targetId limit [] 0 targetId).2.2 ≤ limit * 10) := by
  refine ⟨?_, ?_, ?_⟩
  · simp only [search_by_date]
    exact List.length_take_le limit
      (searchLoop getItem (max 1 (maxId - daysAgo * 20000)) limit []
        0 (max 1 (maxId - daysAgo * 20000))).1
  · intro targetId stories checked currentId
    exact (searchLoop_checked getItem targetId limit stories checked currentId).1
  · intro targetId
    have h := (searchLoop_checked getItem targetId limit [] 0 targetId).2
    omega

/-- C10 witness: a concrete run with `limit = 1` and an oracle that
always raises. -/
theorem search_by_date_bounded_witness :
    1 ≤ 1
    ∧ ((search_by_date (fun _ => .error ()) 100 1 1).length ≤ 1
        ∧ (∀ (targetId : Int) (stories : List Item) (checked : Nat) (currentId : Int),
            (searchLoop (fun _ => .error ()) targetId 1 stories checked currentId).2.1
              = checked
                + (searchLoop (fun _ => .error ()) targetId 1 stories checked currentId).2.2)
        ∧ (∀ targetId : Int,
            (searchLoop (fun _ => .error ()) targetId 1 [] 0 targetId).2.2 ≤ 1 * 10)) :=
  ⟨le_refl 1, search_by_date_bounded (fun _ => .error ()) 100 1 1 (le_refl 1)⟩

/-- A document that does contain a nav, a script and an article with
text "Hello world" — but with the article nested inside the nav. -/
def c5cexDoc : NodeList :=
  NodeList.ofList [el "body" [el "nav" [el "article" [txt "Hello world"]],
    el "script" [txt "tracker()"]]]

/-- C5 counterexample: on an HTML input that contains a nav, a script
and an article with text "Hello world", but with the article nested
inside the nav, the whole nav subtree — article included — is
removed, so the extractor's output does not contain "Hello world";
the claim's universal "for any HTML input containing ..." fails. -/
theorem extractor_keeps_article_cex :
    containsStr (extract_main_content (fun _ => some c5cexDoc) "page") "Hello world"
        = false :=
  by decide
